import Mathlib

/-!
Verification development for the protocol generation and parsing pipeline of
the experiment-react-app repository.

The JavaScript source is embedded shallowly:

* JavaScript strings are modelled as `List Char` (`JStr`).  All string
  operations used by the source (`split('\n')`, `trim()`, `toLowerCase()`,
  `replace`, template-literal concatenation) are defined below on `JStr`
  following ECMAScript semantics for the inputs the code manipulates.
* Dynamically-typed JavaScript values (the experiment descriptor, its
  fields) are modelled by the inductive type `JSValue`, together with
  truthiness, `typeof`-object tests and property lookup.  Numbers are
  modelled as `Int` (no claim depends on fractional or NaN behaviour).
* The non-deterministic clock (`Date.now()`, used only to mint identifiers)
  is threaded as an explicit `now : JStr` parameter; the `created` ISO
  timestamp field, pure clock output never inspected by any claim, is not
  modelled.
* The external completion call is an explicit parameter
  `apiResult : Option JStr` of the orchestrator: `none` models a thrown /
  timed-out / rejected call, `some s` a response whose `result` field is the
  string `s`.
* Code that `throw`s is modelled with `Except` (or `Bool` for the
  validator, whose only observable effect is pass / throw).

The repository contains two divergent implementations of the pipeline: the
validating, multi-pattern one (the second document inside
`src/src/services/aiService.js`, namespace `aiService` below) and the
simpler markdown-split one (`src/src/services/protocolService.js`,
namespace `protocolService` below).  The specification adopts the
multi-pattern variant as the canonical parser/orchestrator, so claims about
the Response Parser and Generation Orchestrator are settled against
namespace `aiService`; the deterministic generator with the canonical
seven-section order and the template generator live in
`protocolService.js` and are settled against namespace `protocolService`.
-/

/-- JavaScript strings, modelled as lists of Unicode scalar values. -/
abbrev JStr := List Char

/-- The characters of the ECMAScript `\s` class that the embedded code can
meet (space, tab, line feed, carriage return, vertical tab, form feed).
JavaScript `\s` and `trim()` additionally accept exotic Unicode spaces
(NBSP, BOM, ...); no claim involves those, and the definitions below use
this single class uniformly. -/
def jsWs (c : Char) : Bool :=
  decide (c = ' ' ∨ c = '\t' ∨ c = '\n' ∨ c = '\r' ∨ c = '\x0b' ∨ c = '\x0c')

/-- `String.prototype.trim()`. -/
def jsTrim (l : JStr) : JStr :=
  ((l.dropWhile jsWs).reverse.dropWhile jsWs).reverse

/-- `String.prototype.split('\n')`: every part is kept, including empty
ones; splitting the empty string yields `[""]`. -/
def splitLines (s : JStr) : List JStr :=
  match s with
  | [] => [[]]
  | c :: rest =>
    if c = '\n' then [] :: splitLines rest
    else
      match splitLines rest with
      | [] => [[c]]
      | l :: ls => (c :: l) :: ls

/-- `String.prototype.replace(pat, repl)` with a plain-string pattern:
only the first occurrence is replaced. -/
def replaceOnce (s pat repl : JStr) : JStr :=
  match s with
  | [] => []
  | c :: rest =>
    if pat.isPrefixOf s then repl ++ s.drop pat.length
    else c :: replaceOnce rest pat repl

/-- ASCII lowering, the fragment of `String.prototype.toLowerCase()` the
slugs of this code base exercise (section titles are ASCII). -/
def jsToLower (c : Char) : Char :=
  if 'A' ≤ c ∧ c ≤ 'Z' then Char.ofNat (c.toNat + 32) else c

/-- Characters kept by the slug regex class `[a-z0-9]`. -/
def isSlugKeep (c : Char) : Bool :=
  decide (('a' ≤ c ∧ c ≤ 'z') ∨ ('0' ≤ c ∧ c ≤ '9'))

mutual

/-- `replace(/[^a-z0-9]+/g, '_')`: each maximal run of characters outside
`[a-z0-9]` collapses to a single underscore (the run is consumed by
`slugSkip` after the `'_'` has been emitted). -/
def slugCore : JStr → JStr
  | [] => []
  | c :: cs => if isSlugKeep c then c :: slugCore cs else '_' :: slugSkip cs

/-- Consume the remainder of a non-`[a-z0-9]` run. -/
def slugSkip : JStr → JStr
  | [] => []
  | c :: cs => if isSlugKeep c then c :: slugCore cs else slugSkip cs

end

/-- `title.toLowerCase().replace(/[^a-z0-9]+/g, '_')`, the section-id slug
used by both parser variants. -/
def slugify (s : JStr) : JStr := slugCore (s.map jsToLower)

/-! ## Dynamically-typed JavaScript values -/

/-- A JavaScript value as the embedded services can observe it.  Object
properties are a key/value list (later bindings shadow earlier ones, as for
duplicate keys in object literals). -/
inductive JSValue where
  | null
  | undefined
  | bool (b : Bool)
  | num (n : Int)
  | str (s : JStr)
  | arr (elems : List JSValue)
  | obj (fields : List (JStr × JSValue))

/-- ECMAScript ToBoolean.  (`NaN`, not representable here, is also falsy.) -/
def truthy : JSValue → Bool
  | .null => false
  | .undefined => false
  | .bool b => b
  | .num n => decide (n ≠ 0)
  | .str s => decide (s ≠ [])
  | .arr _ => true
  | .obj _ => true

/-- The test `typeof v` equals `object` (true for plain objects, arrays and `null`). -/
def typeofIsObject : JSValue → Bool
  | .null => true
  | .arr _ => true
  | .obj _ => true
  | _ => false

def isArray : JSValue → Bool
  | .arr _ => true
  | _ => false

def isStr : JSValue → Bool
  | .str _ => true
  | _ => false

def isUndefined : JSValue → Bool
  | .undefined => true
  | _ => false

/-- The string payload of a string value (only ever read behind an
`isStr` / string-`typeof` guard in the source). -/
def strVal : JSValue → JStr
  | .str s => s
  | _ => []

/-- Property lookup `v.k` on the descriptor object: a missing property
reads as `undefined`; for duplicate keys the last binding wins.  (The code
only reads named properties of the descriptor object, which the
surrounding guards ensure is an object.) -/
def getField (v : JSValue) (k : JStr) : JSValue :=
  match v with
  | .obj fields => ((fields.filter (fun p => decide (p.1 = k))).getLast?.map Prod.snd).getD .undefined
  | _ => .undefined

/-- Stringification by a template literal `${v}`.  Arrays stringify by
joining their elements; the embedded code never interpolates an array
directly (it always calls `.join`), so the `arr` case is left at the
join of an empty list. -/
def jsToString : JSValue → JStr
  | .null => "null".toList
  | .undefined => "undefined".toList
  | .bool true => "true".toList
  | .bool false => "false".toList
  | .num n => (toString n).toList
  | .str s => s
  | .arr _ => []
  | .obj _ => "[object Object]".toList

/-- `v || dflt` followed by a template-literal interpolation, the pervasive
defaulting idiom of the source. -/
def jsOrToString (v : JSValue) (dflt : JStr) : JStr :=
  if truthy v then jsToString v else dflt

/-- `Array.prototype.join(sep)` for the `(x || []).join(...)` calls; the
elements the code joins are strings. -/
def jsJoin (v : JSValue) (sep : JStr) : JStr :=
  match v with
  | .arr xs => List.intercalate sep (xs.map jsToString)
  | _ => []

/-- A strict `===` comparison against a string literal inside `Array.prototype.includes`: it
comparison against a string literal holds only for that very string. -/
def eqStrLit (e : JSValue) (x : JStr) : Bool :=
  match e with
  | .str s => decide (s = x)
  | _ => false

/-- `String.prototype.includes(pat)`: substring containment. -/
def strIncludes (s pat : JStr) : Bool :=
  pat.isPrefixOf s ||
    (match s with
     | [] => false
     | _ :: rest => strIncludes rest pat)

/-- `v?.includes(x)` / `v.includes(x)` as used on `analysisTypes`: array
membership, or substring containment when the value is a string; nullish
values short-circuit to a falsy `undefined`.  (A truthy value of another
type would raise a `TypeError` in JavaScript; every theorem below only
relies on this function on arrays and strings, where it is exact.) -/
def jsIncludes (v : JSValue) (x : JStr) : Bool :=
  match v with
  | .arr xs => xs.any (fun e => eqStrLit e x)
  | .str s => strIncludes s x
  | _ => false

/-- `v.length > 0` (also via optional chaining `v?.length > 0`): arrays and
strings report their length, nullish values yield `undefined > 0 = false`,
other values have no `length` property (or, for objects, a user-supplied
one). -/
def lengthGtZero (v : JSValue) : Bool :=
  match v with
  | .arr xs => decide (0 < xs.length)
  | .str s => decide (0 < s.length)
  | .obj fs =>
    match getField (.obj fs) ("length".toList) with
    | .num n => decide (0 < n)
    | _ => false
  | _ => false

/-- The element list of an array value (`forEach` targets). -/
def jsElems : JSValue → List JSValue
  | .arr xs => xs
  | _ => []

/-! ## Result entities -/

/-- One titled block of a protocol (`{id, title, content}`). -/
structure Sec where
  id : JStr
  title : JStr
  content : JStr
deriving DecidableEq

/-- The protocol object both generators return.  The `created` ISO
timestamp of the `aiService` variant is pure wall-clock output and is not
modelled; the `id` clock component is the explicit `now` parameter. -/
structure Protocol where
  id : JStr
  title : JStr
  date : JStr
  sections : List Sec
  aiGenerated : Bool
deriving DecidableEq

/-- One column of a data-collection template. -/
structure Column where
  id : JStr
  name : JStr
  type : JStr
deriving DecidableEq

/-- The data-collection template of `generateDataTemplate`. -/
structure DataTemplate where
  id : JStr
  title : JStr
  columns : List Column
  rows : Nat
deriving DecidableEq

namespace aiService

/-! Embedding of the validating pipeline variant (the second document of
`src/src/services/aiService.js`). -/

/-- `validateExperimentData` (aiService.js:411-426).  The function either
returns `true` or throws; the thrown message is not modelled, so the result
is `true` for pass and `false` for throw. -/
def validateExperimentData (experimentData : JSValue) : Bool :=
  if ¬ truthy experimentData ∨ ¬ typeofIsObject experimentData then false
  else if ¬ truthy (getField experimentData ("title".toList)) ∨
      ¬ isStr (getField experimentData ("title".toList)) ∨
      jsTrim (strVal (getField experimentData ("title".toList))) = [] then false
  else if truthy (getField experimentData ("analysisTypes".toList)) ∧
      ¬ isArray (getField experimentData ("analysisTypes".toList)) then false
  else true

/-- The regex tail `\s+(.+)$` applied to the remainder of a line, with
JavaScript backtracking semantics: at least one whitespace character, then
a non-empty capture of `.`-matchable characters (any character except LF
and CR) running to the end of the line.  When the remainder is whitespace
only, `\s+` backtracks by exactly one character, so a remainder of length
at least two matches with the last character as capture. -/
def wsPlusRest (rest : JStr) : Option JStr :=
  let T := rest.dropWhile jsWs
  if T ≠ [] then
    if rest.takeWhile jsWs ≠ [] ∧ '\r' ∉ T then some T else none
  else
    match rest.getLast? with
    | some c => if 2 ≤ rest.length ∧ c ≠ '\r' then some [c] else none
    | none => none

/-- Pattern 1, `/^#+\s+(.+)$/` (markdown headers). -/
def markdownHeader (line : JStr) : Option JStr :=
  let H := line.takeWhile (fun c => c = '#')
  if H = [] then none else wsPlusRest (line.drop H.length)

/-- Pattern 2, `/^\d+\.\s+(.+)$/` (numbered sections). -/
def numberedHeader (line : JStr) : Option JStr :=
  let D := line.takeWhile Char.isDigit
  if D = [] then none
  else
    match line.drop D.length with
    | c :: rest => if c = '.' then wsPlusRest rest else none
    | [] => none

/-- Pattern 3, `/^[🔬📋🧪⚠️]\s+(.+)$/` (emoji headers).  The source regex
has no `u` flag, so the character class is a class of single UTF-16 code
units; of those units only U+26A0 and U+FE0F are Unicode scalar values.  A
line starting with one of the three astral emoji never matches, because
after the class consumes the high surrogate the low surrogate fails
`\s+`; such lines therefore fall through to the remaining patterns here
exactly as they do in JavaScript. -/
def emojiHeader (line : JStr) : Option JStr :=
  match line with
  | [] => none
  | c :: rest => if c = '⚠' ∨ c = '️' then wsPlusRest rest else none

/-- Pattern 4, `/^([A-Z][^:]+):?\s*$/` (all-caps / title-like headers):
a capital letter, at least one further non-colon character, then
optionally a colon followed only by whitespace. -/
def allCapsHeader (line : JStr) : Option JStr :=
  match line with
  | [] => none
  | c :: t =>
    if 'A' ≤ c ∧ c ≤ 'Z' then
      if ':' ∈ t then
        let m := t.takeWhile (fun d => d ≠ ':')
        let u := (t.dropWhile (fun d => d ≠ ':')).tail
        if m ≠ [] ∧ u.all jsWs then some (c :: m) else none
      else if t ≠ [] then some (c :: t) else none
    else none

/-- Pattern 5, `/^\*\*([^*]+)\*\*:?\s*$/` (bold headers). -/
def boldHeader (line : JStr) : Option JStr :=
  match line with
  | c1 :: c2 :: rest =>
    if c1 = '*' ∧ c2 = '*' then
      let m := rest.takeWhile (fun d => d ≠ '*')
      match rest.dropWhile (fun d => d ≠ '*') with
      | d1 :: d2 :: v =>
        if d1 = '*' ∧ d2 = '*' then
          if m = [] then none
          else
            let w := if v.head? = some ':' then v.tail else v
            if w.all jsWs then some m else none
        else none
      | _ => none
    else none
  | _ => none

/-- The `||` chain of the five `line.match` calls (aiService.js:507-511):
the first pattern that matches supplies the captured group. -/
def headerMatch (line : JStr) : Option JStr :=
  match markdownHeader line with
  | some m => some m
  | none =>
    match numberedHeader line with
    | some m => some m
    | none =>
      match emojiHeader line with
      | some m => some m
      | none =>
        match allCapsHeader line with
        | some m => some m
        | none => boldHeader line

/-- The mutable loop state of the parser: accumulated sections, the open
section title (`null` before the first header; possibly the empty string
after a header whose capture trims to nothing) and the open section
content lines. -/
structure PState where
  sections : List Sec
  currentSection : Option JStr
  currentContent : List JStr

/-- JavaScript truthiness of `currentSection` (`null` and the empty string are falsy). -/
def optTruthy : Option JStr → Bool
  | some s => decide (s ≠ [])
  | none => false

/-- Closing a section: slug id, stored title, newline-joined and trimmed
content. -/
def closeSec (cs : JStr) (content : List JStr) : Sec :=
  ⟨slugify cs, cs, jsTrim (List.intercalate ("\n".toList) content)⟩

/-- `sections.find(s => s.id === 'introduction').content += '\n' + t`:
append a line to the first introduction section. -/
def appendToIntro : List Sec → JStr → List Sec
  | [], _ => []
  | s :: rest, t =>
    if s.id = "introduction".toList then
      { s with content := s.content ++ "\n".toList ++ t } :: rest
    else s :: appendToIntro rest t

/-- Whether a section with id `introduction` is already present. -/
def hasIntro (secs : List Sec) : Bool :=
  secs.any (fun s => decide (s.id = "introduction".toList))

/-- One iteration of the `for (const line of lines)` loop
(aiService.js:505-542). -/
def step (st : PState) (line : JStr) : PState :=
  match headerMatch line with
  | some cap =>
    let sections :=
      if optTruthy st.currentSection then
        st.sections ++ [closeSec (st.currentSection.getD []) st.currentContent]
      else st.sections
    ⟨sections, some (jsTrim cap), []⟩
  | none =>
    if optTruthy st.currentSection then
      if jsTrim line ≠ [] then
        ⟨st.sections, st.currentSection, st.currentContent ++ [line]⟩
      else st
    else
      if jsTrim line ≠ [] then
        if hasIntro st.sections then
          ⟨appendToIntro st.sections (jsTrim line), st.currentSection, st.currentContent⟩
        else
          ⟨st.sections ++ [⟨"introduction".toList, "Introduction".toList, jsTrim line⟩],
           st.currentSection, st.currentContent⟩
      else st

/-- Closing the final open section after the loop (aiService.js:545-551). -/
def finishSections (st : PState) : List Sec :=
  if optTruthy st.currentSection then
    st.sections ++ [closeSec (st.currentSection.getD []) st.currentContent]
  else st.sections

/-- `parseAIResponse` (aiService.js:493-570).  Over string inputs the
guard (falsy or non-string `aiResponse`) throws exactly for
the empty string, modelled by `Except.error ()`. -/
def parseAIResponse (aiResponse title date now : JStr) : Except Unit Protocol :=
  if aiResponse = [] then .error ()
  else
    let lines := splitLines aiResponse
    let st := lines.foldl step ⟨[], none, []⟩
    let sections := finishSections st
    let sections :=
      if sections = [] then
        [⟨"protocol_content".toList, "Protocol Content".toList, jsTrim aiResponse⟩]
      else sections
    .ok
      { id := "protocol-".toList ++ now,
        title := if title = [] then "Untitled Protocol".toList else title,
        date := date,
        sections := sections,
        aiGenerated := true }

/-- `generateMaterialsList` (aiService.js:620-651). -/
def generateMaterialsList (experimentData : JSValue) : JStr :=
  let baseMaterials : List JStr :=
    [ "- Laboratory notebook for recording observations".toList,
      "- Appropriate measuring instruments (scale, pipettes, etc.)".toList,
      "- Sample containers and labeling materials".toList,
      "- Personal protective equipment (gloves, safety glasses, lab coat)".toList,
      "- Timer or stopwatch for timing procedures".toList ]
  let analysisTypes := getField experimentData ("analysisTypes".toList)
  let additionalMaterials : List JStr :=
    (if jsIncludes analysisTypes ("statistical".toList) then
       [ "- Statistical software or calculator".toList ]
     else []) ++
    (if jsIncludes analysisTypes ("chemical".toList) then
       [ "- Chemical reagents as specified in methods".toList,
         "- pH strips or pH meter".toList,
         "- Fume hood access".toList ]
     else []) ++
    (if jsIncludes analysisTypes ("biological".toList) then
       [ "- Sterile techniques equipment".toList,
         "- Incubator or controlled environment chamber".toList,
         "- Microscope for observations".toList ]
     else [])
  let allMaterials := baseMaterials ++ additionalMaterials
  "## Required Materials and Equipment\n\n".toList ++
    List.intercalate ("\n".toList) allMaterials ++
    "\n\n**Note:** Specific quantities and concentrations will depend on the scale of your experiment. Adjust accordingly based on your experimental design.".toList

/-- `generateMethodsContent` (aiService.js:658-677). -/
def generateMethodsContent (experimentData : JSValue) : JStr :=
  let basicSteps : List JStr :=
    [ "1. **Preparation Phase**\n   - Set up your workspace and gather all required materials\n   - Ensure all equipment is clean and calibrated\n   - Review safety protocols and emergency procedures".toList,
      "2. **Sample Preparation**\n   - Prepare samples according to experimental design\n   - Label all samples clearly with unique identifiers\n   - Record initial conditions and measurements".toList,
      "3. **Experimental Procedure**\n   - Follow the specific steps outlined in your experimental design\n   - Maintain consistent conditions throughout the experiment\n   - Record all observations and measurements in real-time".toList,
      "4. **Data Collection**\n   - Collect data at predetermined time intervals\n   - Use appropriate measuring tools and techniques\n   - Double-check all measurements for accuracy".toList,
      "5. **Quality Control**\n   - Run control samples alongside experimental samples\n   - Verify that equipment is functioning properly\n   - Document any deviations from the planned procedure".toList ]
  let analysisTypes := getField experimentData ("analysisTypes".toList)
  let basicSteps :=
    if jsIncludes analysisTypes ("statistical".toList) then
      basicSteps ++
        [ "6. **Statistical Considerations**\n   - Ensure adequate sample size for statistical power\n   - Randomize sample order to minimize bias\n   - Plan for appropriate statistical tests".toList ]
    else basicSteps
  "## Step-by-Step Procedure\n\n".toList ++
    List.intercalate ("\n\n".toList) basicSteps ++
    "\n\n**Important:** Always follow your institution\x27s specific protocols and safety guidelines. Adjust timing and procedures based on your specific experimental requirements.".toList

/-- `generateDataAnalysisContent` (aiService.js:684-725). -/
def generateDataAnalysisContent (experimentData : JSValue) : JStr :=
  let analysisTypesVal := getField experimentData ("analysisTypes".toList)
  let analysisTypes := if truthy analysisTypesVal then analysisTypesVal else .arr []
  let content := "## Data Analysis Plan\n\n".toList
  let content := content ++ "### Data Preparation\n".toList
  let content := content ++ "1. **Data Cleaning**\n   - Review all collected data for completeness\n   - Identify and handle any outliers or missing values\n   - Verify data entry accuracy\n\n".toList
  let content := content ++ "2. **Data Organization**\n   - Structure data in appropriate format (spreadsheet, database, etc.)\n   - Create backup copies of raw data\n   - Document any data transformations\n\n".toList
  let content := content ++
    (if jsIncludes analysisTypes ("statistical".toList) then
       "### Statistical Analysis\n".toList ++
       "1. **Descriptive Statistics**\n   - Calculate means, medians, and standard deviations\n   - Create frequency distributions\n   - Generate summary tables\n\n".toList ++
       "2. **Inferential Statistics**\n   - Choose appropriate statistical tests\n   - Check assumptions (normality, homogeneity of variance)\n   - Perform hypothesis testing\n   - Calculate confidence intervals\n\n".toList
     else [])
  let content := content ++
    (if jsIncludes analysisTypes ("descriptive".toList) then
       "### Descriptive Analysis\n".toList ++
       "1. **Visual Analysis**\n   - Create appropriate graphs and charts\n   - Generate histograms and box plots\n   - Look for patterns and trends\n\n".toList ++
       "2. **Summary Analysis**\n   - Summarize key findings\n   - Identify notable observations\n   - Document unexpected results\n\n".toList
     else [])
  let content := content ++
    (if ¬ lengthGtZero analysisTypes ∧ isArray analysisTypes then
       "### General Analysis\n".toList ++
       "1. **Organize and review all collected data\n".toList ++
       "2. **Calculate basic statistics (means, ranges, etc.)\n".toList ++
       "3. **Create visualizations to identify patterns\n".toList ++
       "4. **Compare results to expected outcomes\n".toList ++
       "5. **Document findings and observations\n\n".toList
     else [])
  let content := content ++ "### Reporting\n".toList
  let content := content ++ "1. **Results Summary**\n   - Compile key findings\n   - Create tables and figures\n   - Write clear, concise descriptions\n\n".toList
  let content := content ++ "2. **Interpretation**\n   - Discuss results in context of research question\n   - Compare with existing literature or expectations\n   - Identify limitations and potential sources of error\n\n".toList
  content

/-- `generateDefaultProtocol` (aiService.js:578-613): the fallback
protocol of the validating variant, sections Overview / Materials and
Equipment / Methods / Data Analysis / Safety Considerations. -/
def generateDefaultProtocol (experimentData : JSValue) (date now : JStr) : Protocol :=
  let analysisTypesVal := getField experimentData ("analysisTypes".toList)
  { id := "protocol-".toList ++ now,
    title := jsOrToString (getField experimentData ("title".toList)) ("Untitled Protocol".toList),
    date := date,
    sections :=
      [ ⟨"overview".toList, "Overview".toList,
          "**Purpose:** ".toList ++
            jsOrToString (getField experimentData ("purpose".toList)) ("Not specified".toList) ++
            "\n\n**Design Rationale:** ".toList ++
            jsOrToString (getField experimentData ("designRationale".toList)) ("Not specified".toList) ++
            "\n\n**Analysis Types:** ".toList ++
            (let joined := jsJoin (if truthy analysisTypesVal then analysisTypesVal else .arr []) (", ".toList)
             if joined = [] then "Not specified".toList else joined)⟩,
        ⟨"materials".toList, "Materials and Equipment".toList,
          generateMaterialsList experimentData⟩,
        ⟨"methods".toList, "Methods".toList,
          generateMethodsContent experimentData⟩,
        ⟨"data_analysis".toList, "Data Analysis".toList,
          generateDataAnalysisContent experimentData⟩,
        ⟨"safety".toList, "Safety Considerations".toList,
          "- Follow standard laboratory safety protocols\n- Use appropriate personal protective equipment (PPE)\n- Ensure proper ventilation in the work area\n- Handle all chemicals according to their safety data sheets\n- Have emergency procedures readily available\n- Dispose of waste materials according to institutional guidelines".toList⟩ ],
    aiGenerated := false }

/-- The post-fallback enhancement (aiService.js:295-300): replace the
content of the first `data_analysis` section. -/
def updateFirstContent : List Sec → JStr → List Sec
  | [], _ => []
  | s :: rest, c =>
    if s.id = "data_analysis".toList then { s with content := c } :: rest
    else s :: updateFirstContent rest c

/-- The inner `try` block of the orchestrator (aiService.js:279-288):
`some p` when the external result is usable and parses, `none` when the
external call failed (`apiResult = none`), when the response is empty or
whitespace-only, or when the parser threw (the inner `catch` swallows all
of these). -/
def attemptAI (experimentData : JSValue) (apiResult : Option JStr)
    (today now : JStr) : Option Protocol :=
  match apiResult with
  | none => none
  | some detailedProtocol =>
    if detailedProtocol ≠ [] ∧ jsTrim detailedProtocol ≠ [] then
      match parseAIResponse detailedProtocol
          (strVal (getField experimentData ("title".toList))) today now with
      | .ok p => some p
      | .error _ => none
    else none

/-- `protocolService.generateProtocol` (aiService.js:270-307), the
Generation Orchestrator of the validating variant.  `apiResult` stands for
the external completion boundary: `none` for a throw / timeout / rejected
response, `some s` for a response whose `result` field is `s`.  A
validation throw reaches the outer `catch` and is re-thrown
(`Except.error ()`, the message is not modelled). -/
def generateProtocol (experimentData : JSValue) (apiResult : Option JStr)
    (today now : JStr) : Except Unit Protocol :=
  if ¬ validateExperimentData experimentData then .error ()
  else
    match attemptAI experimentData apiResult today now with
    | some p => .ok p
    | none =>
      let protocol := generateDefaultProtocol experimentData today now
      let protocol :=
        if lengthGtZero (getField experimentData ("analysisTypes".toList)) then
          { protocol with
            sections := updateFirstContent protocol.sections
              (generateDataAnalysisContent experimentData) }
        else protocol
      .ok protocol

end aiService

namespace protocolService

/-! Embedding of `src/src/services/protocolService.js` (the markdown-split
variant): the deterministic content generator with the canonical
seven-section order, and the data-template generator. -/

/-- `generateDesignRationale` (protocolService.js:558-562). -/
def generateDesignRationale (rationale : JSValue) : JStr :=
  if ¬ truthy rationale then []
  else "## Design Rationale\n\n".toList ++ jsToString rationale

/-- `purpose.toLowerCase().includes(pat)` on the purpose field (the source
only reaches this behind a truthiness guard, with string purposes). -/
def purposeIncludes (purpose : JSValue) (pat : JStr) : Bool :=
  truthy purpose && strIncludes ((jsToString purpose).map jsToLower) pat

/-- `generateMaterialsList` (protocolService.js:569-618). -/
def generateMaterialsList (experimentData : JSValue) : JStr :=
  let analysisTypes := getField experimentData ("analysisTypes".toList)
  let purpose := getField experimentData ("purpose".toList)
  let content := "List of specific materials and equipment needed for this experiment:\n\n".toList
  let content := content ++
    (if truthy analysisTypes ∧ lengthGtZero analysisTypes then
       "## Required Equipment\n\n".toList ++
       (if jsIncludes analysisTypes ("descriptiveStats".toList) ∨
           jsIncludes analysisTypes ("hypothesisTesting".toList) ∨
           jsIncludes analysisTypes ("regression".toList) ∨
           jsIncludes analysisTypes ("anova".toList) then
          "- Computer with appropriate statistical software (SPSS, R, or similar)\n".toList ++
          "- Data collection sheets or electronic data collection system\n".toList
        else []) ++
       (if jsIncludes analysisTypes ("timeSeries".toList) then
          "- Time-synchronized data logging equipment\n".toList ++
          "- Time series analysis software\n".toList
        else []) ++
       (if jsIncludes analysisTypes ("clustering".toList) ∨
           jsIncludes analysisTypes ("pca".toList) then
          "- High-performance computing resources for complex analyses\n".toList ++
          "- Specialized data visualization software\n".toList
        else [])
     else [])
  let content := content ++ "\n## Experiment-Specific Materials\n\n".toList
  let content := content ++
    (if purposeIncludes purpose ("cell".toList) then
       "- Cell culture media\n".toList ++
       "- Cell lines\n".toList ++
       "- Culture flasks or plates\n".toList
     else if purposeIncludes purpose ("pcr".toList) then
       "- PCR reagents (primers, nucleotides, buffer)\n".toList ++
       "- Thermal cycler\n".toList ++
       "- DNA template\n".toList
     else
       "- Sample materials specific to your experiment\n".toList ++
       "- Measurement instruments\n".toList ++
       "- Experimental apparatus\n".toList)
  content

/-- `generateMethodsContent` (protocolService.js:625-666). -/
def generateMethodsContent (experimentData : JSValue) : JStr :=
  let purpose := getField experimentData ("purpose".toList)
  let genericPrep :=
    "1. Prepare samples according to the specific requirements of your experiment\n".toList ++
    "2. Label all samples clearly with sample ID, date, and experimental condition\n".toList ++
    "3. Create experimental and control groups as specified in your design\n\n".toList
  let content := "Detailed operational steps for conducting the experiment:\n\n".toList
  let content := content ++ "## Sample Preparation\n\n".toList
  let content := content ++
    (if truthy purpose then
       if purposeIncludes purpose ("pcr".toList) then
         "1. Prepare the PCR master mix in a sterile microcentrifuge tube\n".toList ++
         "2. Add appropriate volumes of primers, nucleotides, and buffer according to your specific protocol\n".toList ++
         "3. Aliquot master mix into individual PCR tubes\n".toList ++
         "4. Add template DNA to each reaction tube\n\n".toList
       else if purposeIncludes purpose ("cell".toList) then
         "1. Warm cell culture media to 37°C in a water bath\n".toList ++
         "2. Prepare sterile culture vessels in the biosafety cabinet\n".toList ++
         "3. Thaw cells according to established protocols\n".toList ++
         "4. Seed cells at appropriate density for your experimental design\n\n".toList
       else genericPrep
     else genericPrep)
  let content := content ++ "## Data Collection Procedure\n\n".toList
  let content := content ++
    "1. Set up measurement equipment according to the manufacturer\x27s specifications\n".toList ++
    "2. Calibrate instruments using appropriate standards\n".toList ++
    "3. Perform measurements on samples in a systematic order\n".toList ++
    "4. Record all data in your lab notebook or electronic data collection system\n".toList ++
    "5. Include replicate measurements to ensure reproducibility\n\n".toList
  let content := content ++ "## Quality Control\n\n".toList
  let content := content ++
    "1. Run appropriate positive and negative controls\n".toList ++
    "2. Perform validation checks on instruments before and after data collection\n".toList ++
    "3. Document any deviations from the protocol and potential sources of error\n".toList
  content

/-- One arm of the `switch (analysisType)` of `generateDataAnalysisContent`
(protocolService.js:692-763). -/
def analysisBlock (analysisType : JSValue) : JStr :=
  if eqStrLit analysisType ("descriptiveStats".toList) then
    "### Descriptive Statistics\n".toList ++
    "1. Calculate central tendency measures (mean, median, mode)\n".toList ++
    "2. Determine dispersion measures (standard deviation, variance, range)\n".toList ++
    "3. Identify outliers using boxplots or z-scores\n\n".toList
  else if eqStrLit analysisType ("hypothesisTesting".toList) then
    "### Hypothesis Testing\n".toList ++
    "1. Define null and alternative hypotheses clearly\n".toList ++
    "2. Select appropriate statistical test based on data distribution\n".toList ++
    "3. Set significance level (α) before conducting analysis\n".toList ++
    "4. Calculate p-value and compare to α\n".toList ++
    "5. Record effect sizes to quantify practical significance\n\n".toList
  else if eqStrLit analysisType ("regression".toList) then
    "### Regression Analysis\n".toList ++
    "1. Check assumptions (linearity, independence, homoscedasticity)\n".toList ++
    "2. Fit appropriate regression model to data\n".toList ++
    "3. Validate model using residual analysis\n".toList ++
    "4. Calculate R² or adjusted R² to assess model fit\n\n".toList
  else if eqStrLit analysisType ("anova".toList) then
    "### ANOVA\n".toList ++
    "1. Check assumptions (normality, homogeneity of variance)\n".toList ++
    "2. Conduct appropriate ANOVA test (one-way, two-way, repeated measures)\n".toList ++
    "3. Perform post-hoc tests for significant results\n".toList ++
    "4. Calculate effect sizes (η², ω²)\n\n".toList
  else if eqStrLit analysisType ("timeSeries".toList) then
    "### Time Series Analysis\n".toList ++
    "1. Plot time series data to identify patterns\n".toList ++
    "2. Test for stationarity using appropriate statistical tests\n".toList ++
    "3. Apply decomposition techniques to separate trend, seasonality, and noise\n".toList ++
    "4. Fit appropriate time series models (ARIMA, exponential smoothing)\n\n".toList
  else if eqStrLit analysisType ("clustering".toList) then
    "### Clustering Analysis\n".toList ++
    "1. Standardize or normalize data as appropriate\n".toList ++
    "2. Determine optimal number of clusters using methods like elbow or silhouette\n".toList ++
    "3. Apply clustering algorithm (k-means, hierarchical, DBSCAN)\n".toList ++
    "4. Validate clusters using internal and external validation metrics\n\n".toList
  else if eqStrLit analysisType ("pca".toList) then
    "### Principal Component Analysis\n".toList ++
    "1. Standardize variables before analysis\n".toList ++
    "2. Calculate correlation/covariance matrix\n".toList ++
    "3. Extract principal components and eigenvalues\n".toList ++
    "4. Determine number of components to retain based on variance explained\n".toList ++
    "5. Interpret component loadings\n\n".toList
  else if eqStrLit analysisType ("correlation".toList) then
    "### Correlation Analysis\n".toList ++
    "1. Calculate appropriate correlation coefficients (Pearson, Spearman)\n".toList ++
    "2. Test significance of correlations\n".toList ++
    "3. Create correlation matrix for multiple variables\n".toList ++
    "4. Visualize correlations using heatmap or network diagram\n\n".toList
  else
    "### ".toList ++ jsToString analysisType ++ " Analysis\n".toList ++
    "1. Define specific analysis procedures for this method\n".toList ++
    "2. Document computational steps in detail\n".toList ++
    "3. Include validation criteria for results\n\n".toList

/-- One arm of the `switch (vizType)` of `generateDataAnalysisContent`
(protocolService.js:773-794). -/
def vizBlock (vizType : JSValue) : JStr :=
  if eqStrLit vizType ("line".toList) then
    "- Create line graphs to show trends over time or conditions with proper axis labels and legend\n".toList
  else if eqStrLit vizType ("bar".toList) then
    "- Use bar charts with error bars to compare different categories or groups\n".toList
  else if eqStrLit vizType ("scatter".toList) then
    "- Generate scatter plots with regression lines to examine relationships between variables\n".toList
  else if eqStrLit vizType ("heatmap".toList) then
    "- Create heatmaps with appropriate color scales to visualize complex datasets or correlations\n".toList
  else
    "- Produce ".toList ++ jsToString vizType ++ " visualizations with consistent styling and clear annotations\n".toList

/-- `generateDataAnalysisContent` (protocolService.js:673-798). -/
def generateDataAnalysisContent (experimentData : JSValue) : JStr :=
  let analysisTypes := getField experimentData ("analysisTypes".toList)
  let visualizationTypes := getField experimentData ("visualizationTypes".toList)
  let content := "Data collection and analysis protocol:\n\n".toList
  let content := content ++ "## Data Collection Framework\n\n".toList
  let content := content ++
    "1. Create a data collection spreadsheet with the following columns:\n".toList ++
    "   - Sample ID/Group\n".toList ++
    "   - Experimental condition\n".toList ++
    "   - Measurement values (with units)\n".toList ++
    "   - Date and time of measurement\n".toList ++
    "   - Observer initials\n".toList ++
    "2. Establish consistent measurement intervals\n".toList ++
    "3. Document environmental conditions that may affect results\n\n".toList
  let content := content ++ "## Analysis Workflow\n\n".toList
  let content := content ++
    (if truthy analysisTypes ∧ lengthGtZero analysisTypes then
       ((jsElems analysisTypes).map analysisBlock).flatten
     else
       "- Select appropriate analysis methods based on your data and research questions\n".toList)
  let content := content ++
    (if truthy visualizationTypes ∧ lengthGtZero visualizationTypes then
       "\n## Data Visualization Strategy\n\n".toList ++
       ((jsElems visualizationTypes).map vizBlock).flatten
     else [])
  content

/-- `generateDefaultProtocol` (protocolService.js:491-551): the
Deterministic Content Generator with the canonical section order
Introduction / Design Rationale / Materials and Equipment / Methods / Data
Collection and Analysis / Expected Results / References.  Section contents
are assembled with a `# Header\n\n` prefix and the prefix is then stripped
again by `.replace(...)`, exactly as in the source. -/
def generateDefaultProtocol (experimentData : JSValue) (date now : JStr) : Protocol :=
  let introduction :=
    "# Introduction\n\nThis protocol outlines the experiment titled \"".toList ++
    jsOrToString (getField experimentData ("title".toList)) ("Untitled Experiment".toList) ++
    "\" with the purpose of ".toList ++
    jsOrToString (getField experimentData ("purpose".toList)) ("conducting scientific research".toList) ++
    ".".toList
  let designRationale := generateDesignRationale (getField experimentData ("designRationale".toList))
  let materials := "# Materials and Equipment\n\n".toList ++ generateMaterialsList experimentData
  let methods := "# Methods\n\n".toList ++ generateMethodsContent experimentData
  let dataAnalysis := "# Data Collection and Analysis\n\n".toList ++ generateDataAnalysisContent experimentData
  let expectedResults := "# Expected Results\n\nOutline the anticipated outcomes of this experiment and how they relate to the experimental hypothesis or objectives.".toList
  let references := "# References\n\nList all relevant literature and sources used in developing this protocol.".toList
  { id := "protocol-".toList ++ now,
    title := jsOrToString (getField experimentData ("title".toList)) ("Untitled Protocol".toList),
    date := date,
    sections :=
      [ ⟨"introduction".toList, "Introduction".toList,
          replaceOnce introduction ("# Introduction\n\n".toList) []⟩,
        ⟨"design_rationale".toList, "Design Rationale".toList,
          replaceOnce designRationale ("## Design Rationale\n\n".toList) []⟩,
        ⟨"materials".toList, "Materials and Equipment".toList,
          replaceOnce materials ("# Materials and Equipment\n\n".toList) []⟩,
        ⟨"methods".toList, "Methods".toList,
          replaceOnce methods ("# Methods\n\n".toList) []⟩,
        ⟨"data_analysis".toList, "Data Collection and Analysis".toList,
          replaceOnce dataAnalysis ("# Data Collection and Analysis\n\n".toList) []⟩,
        ⟨"expected_results".toList, "Expected Results".toList,
          replaceOnce expectedResults ("# Expected Results\n\n".toList) []⟩,
        ⟨"references".toList, "References".toList,
          replaceOnce references ("# References\n\n".toList) []⟩ ],
    aiGenerated := false }

/-- `generateDataTemplate` (protocolService.js:93-111).  The
`methodsSection` lookup is computed and discarded in the source too. -/
def generateDataTemplate (protocol : Protocol) (now : JStr) : DataTemplate :=
  let sections := protocol.sections
  let _methodsSection := sections.find? (fun s => decide (s.id = "methods".toList))
  { id := "template-".toList ++ now,
    title := "Data Collection Template for ".toList ++ protocol.title,
    columns :=
      [ ⟨"sample_id".toList, "Sample ID".toList, "text".toList⟩,
        ⟨"date".toList, "Date".toList, "date".toList⟩,
        ⟨"time".toList, "Time".toList, "time".toList⟩,
        ⟨"measurement".toList, "Measurement".toList, "number".toList⟩,
        ⟨"notes".toList, "Notes".toList, "text".toList⟩ ],
    rows := 10 }

end protocolService

/-! ## Specification-side predicates used to state the claims -/

/-- The notion, used by the claims, of a descriptor that "passes validation": an object
whose `title` is a non-empty, non-whitespace string, and whose
`analysisTypes`, if present, is an array. -/
def claimValidDescriptor (v : JSValue) : Bool :=
  match v with
  | .obj _ =>
    (match getField v ("title".toList) with
     | .str s => decide (jsTrim s ≠ [])
     | _ => false) &&
    (match getField v ("analysisTypes".toList) with
     | .undefined => true
     | .arr _ => true
     | _ => false)
  | _ => false

/-- Modelled from the claim C3 wording: the Input Validator is claimed to
fail exactly when the input is not an object, or its title is missing, not
a string, or empty/whitespace-only after trimming, or its `analysisTypes`
is present (bound to a non-`undefined` value) but not a list. -/
def claimC3RejectCond (v : JSValue) : Bool :=
  (match v with
   | .obj _ => false
   | _ => true) ||
  (match getField v ("title".toList) with
   | .str s => decide (jsTrim s = [])
   | _ => true) ||
  (¬ isUndefined (getField v ("analysisTypes".toList)) &&
     ¬ isArray (getField v ("analysisTypes".toList)))

/-- What the validator actually rejects: not a truthy object-`typeof`
value, or a falsy / non-string / whitespace-only title, or a truthy
non-array `analysisTypes` (falsy values such as `null`, `false`, `0` or
the empty string bound to `analysisTypes` are accepted). -/
def amendedC3RejectCond (v : JSValue) : Bool :=
  (¬ (truthy v && typeofIsObject v)) ||
  (let title := getField v ("title".toList)
   ¬ truthy title || ¬ isStr title || decide (jsTrim (strVal title) = [])) ||
  (let analysisTypes := getField v ("analysisTypes".toList)
   truthy analysisTypes && ¬ isArray analysisTypes)

/-- The five heading matchers, in the precedence order of the `||` chain
of the source, as an explicit ordered rule list (claim C4). -/
def headerMatchers : List (JStr → Option JStr) :=
  [aiService.markdownHeader, aiService.numberedHeader, aiService.emojiHeader,
   aiService.allCapsHeader, aiService.boldHeader]

/-- A heading title in the well-formed round-trip documents of claim C9:
non-empty, stable under trimming (no leading or trailing whitespace) and
free of line breaks. -/
def cleanTitle (t : JStr) : Bool :=
  decide (t ≠ []) && decide (t.dropWhile jsWs = t) &&
    decide (t.reverse.dropWhile jsWs = t.reverse) &&
    decide ('\n' ∉ t) && decide ('\r' ∉ t)

/-- A section body line in the round-trip documents of claim C9:
non-empty, stable under trimming, free of line breaks, and not itself
recognized as a heading by any of the five patterns. -/
def cleanBody (b : JStr) : Bool :=
  decide (b ≠ []) && decide (b.dropWhile jsWs = b) &&
    decide (b.reverse.dropWhile jsWs = b.reverse) &&
    decide ('\n' ∉ b) && decide (aiService.headerMatch b = none)

/-- A well-formed markdown hash heading line for a title. -/
def headingLine (t : JStr) : JStr := "# ".toList ++ t

/-- The round-trip document of claim C9: N markdown headings, each
followed by its body line. -/
def mkProtocolText (pairs : List (JStr × JStr)) : JStr :=
  List.intercalate ("\n".toList) ((pairs.map (fun tb => [headingLine tb.1, tb.2])).flatten)

example : aiService.validateExperimentData (.obj [("title".toList, .str "x".toList)]) = true := by decide
example : aiService.validateExperimentData (.obj [("title".toList, .str " ".toList)]) = false := by decide
example : aiService.validateExperimentData (.obj [("title".toList, .str "x".toList), ("analysisTypes".toList, .null)]) = true := by decide
example : aiService.validateExperimentData (.obj [("title".toList, .str "x".toList), ("analysisTypes".toList, .str "y".toList)]) = false := by decide
example : aiService.headerMatch ("# Title".toList) = some ("Title".toList) := by decide
example : aiService.headerMatch ("12. Hello".toList) = some ("Hello".toList) := by decide
example : aiService.headerMatch ("Gloves".toList) = some ("Gloves".toList) := by decide
example : aiService.headerMatch ("A".toList) = none := by decide
example : aiService.headerMatch ("**Bold**:".toList) = some ("Bold".toList) := by decide
example : aiService.headerMatch ("Note: take care".toList) = none := by decide
example : aiService.headerMatch ("#  ".toList) = some (" ".toList) := by decide
example : aiService.headerMatch ("# ".toList) = none := by decide
example : slugify ("Data Analysis".toList) = "data_analysis".toList := by decide
example : slugify ("DATA ANALYSIS!!".toList) = "data_analysis_".toList := by decide
example : slugify ("Data-Analysis".toList) = "data_analysis".toList := by decide
example : aiService.parseAIResponse [] ("T".toList) ("d".toList) ("n".toList) = .error () := rfl
example :
    aiService.parseAIResponse (" ".toList) ("T".toList) ("d".toList) ("n".toList) =
      .ok ⟨"protocol-n".toList, "T".toList, "d".toList,
        [⟨"protocol_content".toList, "Protocol Content".toList, []⟩], true⟩ := rfl
example :
    (aiService.parseAIResponse ("# Materials\nGloves".toList) ("T".toList) ("d".toList) ("n".toList)).map
      (fun p => p.sections.map Sec.title) = .ok ["Materials".toList, "Gloves".toList] := rfl
example :
    (aiService.parseAIResponse ("# Data Analysis\nA\n# Data-Analysis\nB".toList) ("T".toList) ("d".toList) ("n".toList)).map
      (fun p => p.sections.map Sec.id) = .ok ["data_analysis".toList, "data_analysis".toList] := rfl
example :
    (protocolService.generateDefaultProtocol (.obj [("title".toList, .str "x".toList)]) ("d".toList) ("n".toList)).sections.map Sec.id =
      ["introduction".toList, "design_rationale".toList, "materials".toList, "methods".toList,
       "data_analysis".toList, "expected_results".toList, "references".toList] := by decide

/-! ## Helper lemmas -/

theorem intercalate_singleton (sep l : JStr) : List.intercalate sep [l] = l := by
  simp [List.intercalate]

theorem intercalate_cons_cons (sep x y : JStr) (zs : List JStr) :
    List.intercalate sep (x :: y :: zs) = x ++ sep ++ List.intercalate sep (y :: zs) := by
  simp [List.intercalate, List.intersperse]

theorem splitLines_no_newline (l : JStr) (h : '\n' ∉ l) : splitLines l = [l] := by
  induction l with
  | nil => rfl
  | cons c cs ih =>
    have hc : ¬ c = '\n' := fun he => h (he ▸ List.mem_cons_self c cs)
    have hcs : '\n' ∉ cs := fun hm => h (List.mem_cons_of_mem c hm)
    simp [splitLines, hc, ih hcs]

theorem splitLines_append (l s : JStr) (h : '\n' ∉ l) :
    splitLines (l ++ '\n' :: s) = l :: splitLines s := by
  induction l with
  | nil => simp [splitLines]
  | cons c cs ih =>
    have hc : ¬ c = '\n' := fun he => h (he ▸ List.mem_cons_self c cs)
    have hcs : '\n' ∉ cs := fun hm => h (List.mem_cons_of_mem c hm)
    simp [splitLines, hc, ih hcs]

theorem splitLines_intercalate (ls : List JStr) (hne : ls ≠ [])
    (h : ∀ l ∈ ls, '\n' ∉ l) :
    splitLines (List.intercalate ("\n".toList) ls) = ls := by
  induction ls with
  | nil => exact absurd rfl hne
  | cons x xs ih =>
    cases xs with
    | nil => rw [intercalate_singleton]; exact splitLines_no_newline x (h x (by simp))
    | cons y ys =>
      rw [intercalate_cons_cons, List.append_assoc]
      show splitLines (x ++ '\n' :: List.intercalate ("\n".toList) (y :: ys)) = _
      rw [splitLines_append x _ (h x (by simp)),
        ih (by simp) (fun l hl => h l (List.mem_cons_of_mem x hl))]

theorem jsTrim_eq_self (l : JStr) (h1 : l.dropWhile jsWs = l)
    (h2 : l.reverse.dropWhile jsWs = l.reverse) : jsTrim l = l := by
  unfold jsTrim
  rw [h1, h2, List.reverse_reverse]

theorem jsTrim_all_ws (l : JStr) (h : ∀ c ∈ l, jsWs c = true) : jsTrim l = [] := by
  unfold jsTrim
  have h1 : l.dropWhile jsWs = [] := List.dropWhile_eq_nil_iff.mpr h
  rw [h1]
  rfl

theorem takeWhile_nil_of_head (p : Char → Bool) (c : Char) (cs : JStr) (h : p c = false) :
    (c :: cs).takeWhile p = [] := by
  simp [List.takeWhile_cons, h]

theorem dropWhile_head_false (p : Char → Bool) (c : Char) (cs : JStr)
    (h : (c :: cs).dropWhile p = c :: cs) : p c = false := by
  cases hpc : p c
  · rfl
  · rw [List.dropWhile_cons, hpc] at h
    simp only [if_true] at h
    have hlen := (List.dropWhile_sublist (l := cs) p).length_le
    rw [h] at hlen
    simp at hlen

theorem markdownHeader_none_of_head (c : Char) (cs : JStr) (h : ¬ c = '#') :
    aiService.markdownHeader (c :: cs) = none := by
  simp [aiService.markdownHeader, List.takeWhile_cons, h]

theorem numberedHeader_none_of_head (c : Char) (cs : JStr) (h : c.isDigit = false) :
    aiService.numberedHeader (c :: cs) = none := by
  simp [aiService.numberedHeader, List.takeWhile_cons, h]

theorem emojiHeader_none_of_head (c : Char) (cs : JStr)
    (h1 : ¬ c = '⚠') (h2 : ¬ c = '️') :
    aiService.emojiHeader (c :: cs) = none := by
  simp [aiService.emojiHeader, h1, h2]

theorem allCapsHeader_none_of_head (c : Char) (cs : JStr)
    (h : ¬ ('A' ≤ c ∧ c ≤ 'Z')) :
    aiService.allCapsHeader (c :: cs) = none := by
  simp [aiService.allCapsHeader, h]

theorem boldHeader_none_of_head (c : Char) (cs : JStr) (h : ¬ c = '*') :
    aiService.boldHeader (c :: cs) = none := by
  cases cs <;> simp [aiService.boldHeader, h]

theorem headerMatch_nil : aiService.headerMatch [] = none := rfl

/-- A line whose first character is whitespace (or an empty line) matches
none of the five heading patterns. -/
theorem headerMatch_of_ws_head (l : JStr)
    (h : l = [] ∨ ∃ c cs, l = c :: cs ∧ jsWs c = true) :
    aiService.headerMatch l = none := by
  rcases h with rfl | ⟨c, cs, rfl, hc⟩
  · rfl
  · have hcases : c = ' ' ∨ c = '\t' ∨ c = '\n' ∨ c = '\r' ∨ c = '\x0b' ∨ c = '\x0c' := by
      simpa [jsWs] using hc
    have h1 : aiService.markdownHeader (c :: cs) = none := by
      apply markdownHeader_none_of_head
      rcases hcases with rfl | rfl | rfl | rfl | rfl | rfl <;> decide
    have h2 : aiService.numberedHeader (c :: cs) = none := by
      apply numberedHeader_none_of_head
      rcases hcases with rfl | rfl | rfl | rfl | rfl | rfl <;> decide
    have h3 : aiService.emojiHeader (c :: cs) = none := by
      apply emojiHeader_none_of_head <;>
        (rcases hcases with rfl | rfl | rfl | rfl | rfl | rfl <;> decide)
    have h4 : aiService.allCapsHeader (c :: cs) = none := by
      apply allCapsHeader_none_of_head
      rcases hcases with rfl | rfl | rfl | rfl | rfl | rfl <;> decide
    have h5 : aiService.boldHeader (c :: cs) = none := by
      apply boldHeader_none_of_head
      rcases hcases with rfl | rfl | rfl | rfl | rfl | rfl <;> decide
    simp [aiService.headerMatch, h1, h2, h3, h4, h5]

/-- The markdown pattern recognizes a `"# "` heading line built from a
clean title, capturing exactly the title (and the four later patterns are
not consulted). -/
theorem headerMatch_headingLine (t : JStr) (h : cleanTitle t = true) :
    aiService.headerMatch (headingLine t) = some t := by
  simp only [cleanTitle, Bool.and_eq_true, decide_eq_true_eq] at h
  obtain ⟨⟨⟨⟨hne, hdrop⟩, hrev⟩, hn⟩, hr⟩ := h
  have hmd : aiService.markdownHeader ('#' :: ' ' :: t) = some t := by
    have htw : List.takeWhile (fun c => decide (c = '#')) ('#' :: ' ' :: t) = ['#'] := by
      simp [List.takeWhile_cons]
    have hT : List.dropWhile jsWs (' ' :: t) = t := by
      rw [List.dropWhile_cons]
      simp only [show jsWs ' ' = true from rfl, if_true]
      exact hdrop
    simp [aiService.markdownHeader, aiService.wsPlusRest, htw, hT, hne, hr,
      List.takeWhile_cons, show jsWs ' ' = true from rfl]
  show aiService.headerMatch ('#' :: ' ' :: t) = some t
  simp [aiService.headerMatch, hmd]

theorem splitLines_ne_nil (s : JStr) : splitLines s ≠ [] := by
  cases s with
  | nil => simp [splitLines]
  | cons c rest =>
    simp only [splitLines]
    split
    · simp
    · split <;> simp

theorem splitLines_all_ws (s : JStr) (h : ∀ c ∈ s, jsWs c = true) :
    ∀ l ∈ splitLines s, ∀ c ∈ l, jsWs c = true := by
  induction s with
  | nil =>
    intro l hl
    simp [splitLines] at hl
    subst hl
    intro c hc
    cases hc
  | cons a s ih =>
    have ha := h a (by simp)
    have hs : ∀ c ∈ s, jsWs c = true := fun c hc => h c (by simp [hc])
    intro l hl c hc
    by_cases han : a = '\n'
    · rw [show splitLines (a :: s) = [] :: splitLines s by simp [splitLines, han]] at hl
      rcases List.mem_cons.mp hl with rfl | hl
      · cases hc
      · exact ih hs l hl c hc
    · cases hsp : splitLines s with
      | nil => exact absurd hsp (splitLines_ne_nil s)
      | cons m ms =>
        rw [show splitLines (a :: s) = (a :: m) :: ms by simp [splitLines, han, hsp]] at hl
        rcases List.mem_cons.mp hl with rfl | hl
        · rcases List.mem_cons.mp hc with rfl | hc
          · exact ha
          · exact ih hs m (by simp [hsp]) c hc
        · exact ih hs l (by simp [hsp, hl]) c hc

theorem foldl_step_all_ws (lines : List JStr)
    (h : ∀ l ∈ lines, ∀ c ∈ l, jsWs c = true) :
    lines.foldl aiService.step ⟨[], none, []⟩ = ⟨[], none, []⟩ := by
  induction lines with
  | nil => rfl
  | cons l ls ih =>
    have hl := h l (by simp)
    have hm : aiService.headerMatch l = none := by
      apply headerMatch_of_ws_head
      cases l with
      | nil => exact Or.inl rfl
      | cons c cs => exact Or.inr ⟨c, cs, rfl, hl c (by simp)⟩
    have ht : jsTrim l = [] := jsTrim_all_ws l hl
    have hstep : aiService.step ⟨[], none, []⟩ l = ⟨[], none, []⟩ := by
      simp [aiService.step, hm, aiService.optTruthy, ht]
    rw [List.foldl_cons, hstep, ih (fun l' hl' => h l' (by simp [hl']))]

theorem parseAIResponse_ok (s t d n : JStr) (h : s ≠ []) :
    ∃ p, aiService.parseAIResponse s t d n = .ok p ∧ p.sections ≠ [] := by
  unfold aiService.parseAIResponse
  rw [if_neg h]
  refine ⟨_, rfl, ?_⟩
  simp only
  split <;> simp_all

/-- Unfolding of `step` on a heading line. -/
theorem step_some (st : aiService.PState) (line cap : JStr)
    (hm : aiService.headerMatch line = some cap) :
    aiService.step st line =
      ⟨if aiService.optTruthy st.currentSection then
          st.sections ++ [aiService.closeSec (st.currentSection.getD []) st.currentContent]
        else st.sections,
       some (jsTrim cap), []⟩ := by
  unfold aiService.step
  rw [hm]

/-- Unfolding of `step` on a non-heading line. -/
theorem step_none (st : aiService.PState) (line : JStr)
    (hm : aiService.headerMatch line = none) :
    aiService.step st line =
      if aiService.optTruthy st.currentSection then
        if jsTrim line ≠ [] then
          ⟨st.sections, st.currentSection, st.currentContent ++ [line]⟩
        else st
      else
        if jsTrim line ≠ [] then
          if aiService.hasIntro st.sections then
            ⟨aiService.appendToIntro st.sections (jsTrim line), st.currentSection, st.currentContent⟩
          else
            ⟨st.sections ++ [⟨"introduction".toList, "Introduction".toList, jsTrim line⟩],
             st.currentSection, st.currentContent⟩
        else st := by
  unfold aiService.step
  rw [hm]

theorem appendToIntro_preserves_idslug (l : List Sec) (t : JStr)
    (h : ∀ sec ∈ l, sec.id = slugify sec.title) :
    ∀ sec ∈ aiService.appendToIntro l t, sec.id = slugify sec.title := by
  induction l with
  | nil =>
    intro sec hs
    simp [aiService.appendToIntro] at hs
  | cons s rest ih =>
    intro sec hs
    unfold aiService.appendToIntro at hs
    by_cases hid : s.id = "introduction".toList
    · rw [if_pos hid] at hs
      rcases List.mem_cons.mp hs with rfl | hs
      · exact h s (by simp)
      · exact h sec (by simp [hs])
    · rw [if_neg hid] at hs
      rcases List.mem_cons.mp hs with rfl | hs
      · exact h sec (by simp)
      · exact ih (fun sec' hs' => h sec' (by simp [hs'])) sec hs

theorem step_preserves_idslug (st : aiService.PState) (line : JStr)
    (h : ∀ sec ∈ st.sections, sec.id = slugify sec.title) :
    ∀ sec ∈ (aiService.step st line).sections, sec.id = slugify sec.title := by
  intro sec hs
  cases hm : aiService.headerMatch line with
  | some cap =>
    rw [step_some st line cap hm] at hs
    simp only at hs
    by_cases hot : aiService.optTruthy st.currentSection
    · rw [if_pos hot] at hs
      rcases List.mem_append.mp hs with hs | hs
      · exact h sec hs
      · rcases List.mem_singleton.mp hs with rfl
        rfl
    · rw [if_neg hot] at hs
      exact h sec hs
  | none =>
    rw [step_none st line hm] at hs
    by_cases hot : aiService.optTruthy st.currentSection
    · rw [if_pos hot] at hs
      by_cases htr : jsTrim line ≠ []
      · rw [if_pos htr] at hs
        exact h sec hs
      · rw [if_neg htr] at hs
        exact h sec hs
    · rw [if_neg hot] at hs
      by_cases htr : jsTrim line ≠ []
      · rw [if_pos htr] at hs
        by_cases hin : aiService.hasIntro st.sections
        · rw [if_pos hin] at hs
          exact appendToIntro_preserves_idslug st.sections (jsTrim line) h sec hs
        · rw [if_neg hin] at hs
          rcases List.mem_append.mp hs with hs | hs
          · exact h sec hs
          · rcases List.mem_singleton.mp hs with rfl
            exact (by decide : ("introduction".toList : JStr) = slugify ("Introduction".toList))
      · rw [if_neg htr] at hs
        exact h sec hs

theorem foldl_step_preserves_idslug (lines : List JStr) (st : aiService.PState)
    (h : ∀ sec ∈ st.sections, sec.id = slugify sec.title) :
    ∀ sec ∈ (lines.foldl aiService.step st).sections, sec.id = slugify sec.title := by
  induction lines generalizing st with
  | nil => exact h
  | cons l ls ih =>
    rw [List.foldl_cons]
    exact ih (aiService.step st l) (step_preserves_idslug st l h)

theorem finishSections_preserves_idslug (st : aiService.PState)
    (h : ∀ sec ∈ st.sections, sec.id = slugify sec.title) :
    ∀ sec ∈ aiService.finishSections st, sec.id = slugify sec.title := by
  intro sec hs
  unfold aiService.finishSections at hs
  by_cases hot : aiService.optTruthy st.currentSection
  · rw [if_pos hot] at hs
    rcases List.mem_append.mp hs with hs | hs
    · exact h sec hs
    · rcases List.mem_singleton.mp hs with rfl
      rfl
  · rw [if_neg hot] at hs
    exact h sec hs

theorem cleanTitle_spec (t : JStr) (h : cleanTitle t = true) :
    t ≠ [] ∧ t.dropWhile jsWs = t ∧ t.reverse.dropWhile jsWs = t.reverse ∧
      '\n' ∉ t ∧ '\r' ∉ t := by
  simp only [cleanTitle, Bool.and_eq_true, decide_eq_true_eq] at h
  exact ⟨h.1.1.1.1, h.1.1.1.2, h.1.1.2, h.1.2, h.2⟩

theorem cleanBody_spec (b : JStr) (h : cleanBody b = true) :
    b ≠ [] ∧ b.dropWhile jsWs = b ∧ b.reverse.dropWhile jsWs = b.reverse ∧
      '\n' ∉ b ∧ aiService.headerMatch b = none := by
  simp only [cleanBody, Bool.and_eq_true, decide_eq_true_eq] at h
  exact ⟨h.1.1.1.1, h.1.1.1.2, h.1.1.2, h.1.2, h.2⟩

theorem closeSec_single (t b : JStr) (hb1 : b.dropWhile jsWs = b)
    (hb2 : b.reverse.dropWhile jsWs = b.reverse) :
    aiService.closeSec t [b] = ⟨slugify t, t, b⟩ := by
  unfold aiService.closeSec
  rw [intercalate_singleton, jsTrim_eq_self b hb1 hb2]

/-- Processing one `"# title"` line followed by one body line from a state
with an open section `t` holding accumulated content `[b]`. -/
theorem step_pair (S : List Sec) (t b t' b' : JStr)
    (htne : t ≠ []) (hbd : b.dropWhile jsWs = b)
    (hbr : b.reverse.dropWhile jsWs = b.reverse)
    (ht' : cleanTitle t' = true) (hb' : cleanBody b' = true) :
    aiService.step (aiService.step ⟨S, some t, [b]⟩ (headingLine t')) b' =
      ⟨S ++ [⟨slugify t, t, b⟩], some t', [b']⟩ := by
  obtain ⟨ht'ne, ht'd, ht'rv, _, _⟩ := cleanTitle_spec t' ht'
  obtain ⟨hb'ne, hb'd, hb'r, _, hb'm⟩ := cleanBody_spec b' hb'
  have h1 : aiService.step ⟨S, some t, [b]⟩ (headingLine t') =
      ⟨S ++ [⟨slugify t, t, b⟩], some t', []⟩ := by
    rw [step_some _ _ t' (headerMatch_headingLine t' ht')]
    simp only [aiService.optTruthy, Option.getD]
    rw [if_pos (by simpa using htne), closeSec_single t b hbd hbr,
      jsTrim_eq_self t' ht'd ht'rv]
  rw [h1, step_none _ _ hb'm]
  simp only [aiService.optTruthy]
  rw [if_pos (by simpa using ht'ne), if_pos (by simp [jsTrim_eq_self b' hb'd hb'r, hb'ne])]
  simp [jsTrim_eq_self b' hb'd hb'r]

/-- Processing the very first `"# title"` line and its body from the
initial state. -/
theorem step_first (t' b' : JStr)
    (ht' : cleanTitle t' = true) (hb' : cleanBody b' = true) :
    aiService.step (aiService.step ⟨[], none, []⟩ (headingLine t')) b' =
      ⟨[], some t', [b']⟩ := by
  obtain ⟨ht'ne, ht'd, ht'rv, _, _⟩ := cleanTitle_spec t' ht'
  obtain ⟨hb'ne, hb'd, hb'r, _, hb'm⟩ := cleanBody_spec b' hb'
  have h1 : aiService.step ⟨[], none, []⟩ (headingLine t') = ⟨[], some t', []⟩ := by
    rw [step_some _ _ t' (headerMatch_headingLine t' ht')]
    simp only [aiService.optTruthy]
    rw [if_neg (by simp), jsTrim_eq_self t' ht'd ht'rv]
  rw [h1, step_none _ _ hb'm]
  simp only [aiService.optTruthy]
  rw [if_pos (by simpa using ht'ne), if_pos (by simp [jsTrim_eq_self b' hb'd hb'r, hb'ne])]
  simp [jsTrim_eq_self b' hb'd hb'r]

/-- The main round-trip loop invariant: with an open clean section and one
accumulated body line, processing the remaining heading/body pairs and
closing the final section appends exactly one section per pair. -/
theorem foldl_pairs (pairs : List (JStr × JStr)) (S : List Sec) (t b : JStr)
    (ht : cleanTitle t = true) (hb : cleanBody b = true)
    (hp : ∀ tb ∈ pairs, cleanTitle tb.1 = true ∧ cleanBody tb.2 = true) :
    aiService.finishSections
        (((pairs.map (fun tb => [headingLine tb.1, tb.2])).flatten).foldl
          aiService.step ⟨S, some t, [b]⟩) =
      S ++ ⟨slugify t, t, b⟩ :: pairs.map (fun tb => ⟨slugify tb.1, tb.1, tb.2⟩) := by
  induction pairs generalizing S t b with
  | nil =>
    obtain ⟨htne, _, _, _, _⟩ := cleanTitle_spec t ht
    obtain ⟨_, hbd, hbr, _, _⟩ := cleanBody_spec b hb
    simp only [List.map_nil, List.flatten_nil, List.foldl_nil]
    unfold aiService.finishSections
    simp only [aiService.optTruthy, Option.getD]
    rw [if_pos (by simpa using htne), closeSec_single t b hbd hbr]
  | cons tb rest ih =>
    obtain ⟨ht1, hb1⟩ := hp tb (by simp)
    obtain ⟨htne, _, _, _, _⟩ := cleanTitle_spec t ht
    obtain ⟨_, hbd, hbr, _, _⟩ := cleanBody_spec b hb
    simp only [List.map_cons, List.flatten_cons, List.cons_append, List.foldl_cons]
    rw [show aiService.step (aiService.step ⟨S, some t, [b]⟩ (headingLine tb.1)) tb.2 =
        ⟨S ++ [⟨slugify t, t, b⟩], some tb.1, [tb.2]⟩ from
      step_pair S t b tb.1 tb.2 htne hbd hbr ht1 hb1]
    simp only [List.nil_append]
    rw [ih (S ++ [Sec.mk (slugify t) t b]) tb.1 tb.2 ht1 hb1
      (fun tb' h' => hp tb' (by simp [h']))]
    simp

/-- Full unfolding of the parser on non-empty input. -/
theorem parseAIResponse_eq (s t d n : JStr) (h : s ≠ []) :
    aiService.parseAIResponse s t d n = .ok
      { id := "protocol-".toList ++ n,
        title := if t = [] then "Untitled Protocol".toList else t,
        date := d,
        sections :=
          if aiService.finishSections ((splitLines s).foldl aiService.step ⟨[], none, []⟩) = [] then
            [⟨"protocol_content".toList, "Protocol Content".toList, jsTrim s⟩]
          else aiService.finishSections ((splitLines s).foldl aiService.step ⟨[], none, []⟩),
        aiGenerated := true } := by
  unfold aiService.parseAIResponse
  rw [if_neg h]

theorem validate_of_claimValid (v : JSValue) (h : claimValidDescriptor v = true) :
    aiService.validateExperimentData v = true := by
  cases v with
  | obj fields =>
    simp only [claimValidDescriptor, Bool.and_eq_true] at h
    obtain ⟨h1, h2⟩ := h
    unfold aiService.validateExperimentData
    rw [if_neg (by simp [truthy, typeofIsObject])]
    cases ht : getField (JSValue.obj fields) ("title".toList) with
    | str s =>
      rw [ht] at h1
      have hs : jsTrim s ≠ [] := by simpa using h1
      have hsne : s ≠ [] := fun h0 => hs (by rw [h0]; rfl)
      have hcond2 : ¬ (¬ truthy (JSValue.str s) = true ∨ ¬ isStr (JSValue.str s) = true ∨
          jsTrim (strVal (JSValue.str s)) = []) := by
        simp [truthy, isStr, strVal, hs, hsne]
      rw [if_neg hcond2]
      cases ha : getField (JSValue.obj fields) ("analysisTypes".toList) with
      | undefined => rw [if_neg (by simp [truthy])]
      | arr xs => rw [if_neg (by simp [isArray])]
      | null => rw [ha] at h2; simp at h2
      | bool b => rw [ha] at h2; simp at h2
      | num m => rw [ha] at h2; simp at h2
      | str s' => rw [ha] at h2; simp at h2
      | obj fs => rw [ha] at h2; simp at h2
    | null => rw [ht] at h1; simp at h1
    | undefined => rw [ht] at h1; simp at h1
    | bool b => rw [ht] at h1; simp at h1
    | num m => rw [ht] at h1; simp at h1
    | arr xs => rw [ht] at h1; simp at h1
    | obj fs => rw [ht] at h1; simp at h1
  | null => simp [claimValidDescriptor] at h
  | undefined => simp [claimValidDescriptor] at h
  | bool b => simp [claimValidDescriptor] at h
  | num m => simp [claimValidDescriptor] at h
  | str s => simp [claimValidDescriptor] at h
  | arr xs => simp [claimValidDescriptor] at h

/-- A failed, empty or whitespace-only external result never yields an AI
protocol. -/
theorem attemptAI_none (v : JSValue) (r : Option JStr) (today now : JStr)
    (hr : r = none ∨ ∃ s, r = some s ∧ jsTrim s = []) :
    aiService.attemptAI v r today now = none := by
  rcases hr with rfl | ⟨s, rfl, hs⟩
  · rfl
  · have heq : aiService.attemptAI v (some s) today now =
        (if s ≠ [] ∧ jsTrim s ≠ [] then
          (match aiService.parseAIResponse s (strVal (getField v ("title".toList))) today now with
           | .ok p => some p
           | .error _ => none)
        else none) := rfl
    rw [heq, if_neg (by simp [hs])]

/-- A usable external result yields the parsed protocol. -/
theorem attemptAI_some (v : JSValue) (s today now : JStr) (p : Protocol)
    (hcond : s ≠ [] ∧ jsTrim s ≠ [])
    (hp : aiService.parseAIResponse s (strVal (getField v ("title".toList))) today now = .ok p) :
    aiService.attemptAI v (some s) today now = some p := by
  have heq : aiService.attemptAI v (some s) today now =
      (if s ≠ [] ∧ jsTrim s ≠ [] then
        (match aiService.parseAIResponse s (strVal (getField v ("title".toList))) today now with
         | .ok p => some p
         | .error _ => none)
      else none) := rfl
  rw [heq, if_pos hcond, hp]

/-- The orchestrator on the AI path. -/
theorem generateProtocol_of_attempt_some (v : JSValue) (r : Option JStr)
    (today now : JStr) (p : Protocol)
    (hv : aiService.validateExperimentData v = true)
    (hatt : aiService.attemptAI v r today now = some p) :
    aiService.generateProtocol v r today now = .ok p := by
  unfold aiService.generateProtocol
  rw [if_neg (by simp [hv]), hatt]

/-- The orchestrator on the fallback path. -/
theorem generateProtocol_of_attempt_none (v : JSValue) (r : Option JStr)
    (today now : JStr)
    (hv : aiService.validateExperimentData v = true)
    (hatt : aiService.attemptAI v r today now = none) :
    aiService.generateProtocol v r today now = .ok
      (if lengthGtZero (getField v ("analysisTypes".toList)) then
        { aiService.generateDefaultProtocol v today now with
          sections := aiService.updateFirstContent
            (aiService.generateDefaultProtocol v today now).sections
            (aiService.generateDataAnalysisContent v) }
      else aiService.generateDefaultProtocol v today now) := by
  unfold aiService.generateProtocol
  rw [if_neg (by simp [hv]), hatt]

/-- The post-fallback "enhancement" rewrites the `data_analysis` section
content to the very value it already holds, so the fallback protocol is
the default protocol unchanged. -/
theorem enhance_eq_default (v : JSValue) (today now : JStr) :
    (if lengthGtZero (getField v ("analysisTypes".toList)) then
      { aiService.generateDefaultProtocol v today now with
        sections := aiService.updateFirstContent
          (aiService.generateDefaultProtocol v today now).sections
          (aiService.generateDataAnalysisContent v) }
    else aiService.generateDefaultProtocol v today now) =
    aiService.generateDefaultProtocol v today now := by
  split
  · rfl
  · rfl

theorem updateFirstContent_ne_nil (l : List Sec) (c : JStr) (h : l ≠ []) :
    aiService.updateFirstContent l c ≠ [] := by
  cases l with
  | nil => exact absurd rfl h
  | cons s rest =>
    unfold aiService.updateFirstContent
    split <;> simp

theorem generateDefaultProtocol_sections_length (v : JSValue) (today now : JStr) :
    (aiService.generateDefaultProtocol v today now).sections.length = 5 := rfl

theorem generateDefaultProtocol_sections_ne_nil (v : JSValue) (today now : JStr) :
    (aiService.generateDefaultProtocol v today now).sections ≠ [] := by
  intro h0
  have h5 := generateDefaultProtocol_sections_length v today now
  rw [h0] at h5
  simp at h5

/-- The validator returns false exactly on the inputs described by
`amendedC3RejectCond`. -/
theorem validator_false_iff_amended (v : JSValue) :
    aiService.validateExperimentData v = false ↔ amendedC3RejectCond v = true := by
  unfold aiService.validateExperimentData amendedC3RejectCond
  split_ifs with h1 h2 h3 <;> first
    | (simp_all; tauto)
    | simp_all

/-- Every input the validator actually rejects is also rejected by the
claimed condition: the divergence between the two is one-sided. -/
theorem amended_imp_claimCond (v : JSValue)
    (h : amendedC3RejectCond v = true) : claimC3RejectCond v = true := by
  cases v with
  | null => simp [claimC3RejectCond]
  | undefined => simp [claimC3RejectCond]
  | bool b => simp [claimC3RejectCond]
  | num n => simp [claimC3RejectCond]
  | str s => simp [claimC3RejectCond]
  | arr xs => simp [claimC3RejectCond]
  | obj fields =>
    cases ht : getField (JSValue.obj fields) ("title".toList) <;>
      cases ha : getField (JSValue.obj fields) ("analysisTypes".toList) <;>
      simp_all [amendedC3RejectCond, claimC3RejectCond, truthy, typeofIsObject,
        isStr, isArray, isUndefined, strVal, jsTrim] <;>
      (rcases h with rfl | h
       · simp
       · exact h)

/-! ## Claims -/

/-- C1: for every ExperimentDescriptor that passes validation (an object
whose title is a non-empty, non-whitespace string, and whose
analysisTypes, if present, is an array), the orchestrating
`generateProtocol` returns a Protocol whose sections list contains at
least one Section, regardless of whether the external completion call
succeeds (`some s` with usable text), fails (`none`), or returns unusable
text (empty / whitespace-only `some s`). -/
theorem C1_generateProtocol_sections_nonempty (v : JSValue) (r : Option JStr)
    (today now : JStr) (hv : claimValidDescriptor v = true) :
    ∃ p, aiService.generateProtocol v r today now = .ok p ∧ p.sections ≠ [] := by
  have hval := validate_of_claimValid v hv
  cases r with
  | none =>
    refine ⟨_, generateProtocol_of_attempt_none v none today now hval
      (attemptAI_none v none today now (Or.inl rfl)), ?_⟩
    rw [enhance_eq_default]
    exact generateDefaultProtocol_sections_ne_nil v today now
  | some s =>
    by_cases hcond : s ≠ [] ∧ jsTrim s ≠ []
    · obtain ⟨p, hp, hps⟩ :=
        parseAIResponse_ok s (strVal (getField v ("title".toList))) today now hcond.1
      exact ⟨p, generateProtocol_of_attempt_some v (some s) today now p hval
        (attemptAI_some v s today now p hcond hp), hps⟩
    · have hr : (some s : Option JStr) = none ∨
          ∃ s', (some s : Option JStr) = some s' ∧ jsTrim s' = [] := by
        right
        refine ⟨s, rfl, ?_⟩
        by_cases hse : s = []
        · rw [hse]; rfl
        · by_contra htr
          exact hcond ⟨hse, htr⟩
      refine ⟨_, generateProtocol_of_attempt_none v (some s) today now hval
        (attemptAI_none v (some s) today now hr), ?_⟩
      rw [enhance_eq_default]
      exact generateDefaultProtocol_sections_ne_nil v today now

/-- C1 witness: a concrete valid descriptor with a failed external call. -/
theorem C1_witness :
    claimValidDescriptor (JSValue.obj [("title".toList, JSValue.str ("pH Study".toList))]) = true ∧
    ∃ p, aiService.generateProtocol
        (JSValue.obj [("title".toList, JSValue.str ("pH Study".toList))])
        none ("1/1/2020".toList) ("0".toList) = .ok p ∧ p.sections ≠ [] :=
  ⟨by decide, C1_generateProtocol_sections_nonempty _ none _ _ (by decide)⟩

/-- C2: if the external completion call throws / times out (`none`) or
returns an empty or whitespace-only string, the orchestrator returns
exactly the Protocol of the deterministic fallback generator called with
the same descriptor and the same date (and the same clock value for the
minted id), and that Protocol has `aiGenerated = false`. -/
theorem C2_fallback_is_default (v : JSValue) (r : Option JStr) (today now : JStr)
    (hv : claimValidDescriptor v = true)
    (hr : r = none ∨ ∃ s, r = some s ∧ jsTrim s = []) :
    aiService.generateProtocol v r today now =
      .ok (aiService.generateDefaultProtocol v today now) ∧
    (aiService.generateDefaultProtocol v today now).aiGenerated = false := by
  have hval := validate_of_claimValid v hv
  refine ⟨?_, rfl⟩
  rw [generateProtocol_of_attempt_none v r today now hval
    (attemptAI_none v r today now hr), enhance_eq_default]

/-- C2 witness: a whitespace-only external response on a concrete valid
descriptor. -/
theorem C2_witness :
    aiService.generateProtocol
        (JSValue.obj [("title".toList, JSValue.str ("pH Study".toList))])
        (some (" ".toList)) ("1/1/2020".toList) ("0".toList) =
      .ok (aiService.generateDefaultProtocol
        (JSValue.obj [("title".toList, JSValue.str ("pH Study".toList))])
        ("1/1/2020".toList) ("0".toList)) ∧
    (aiService.generateDefaultProtocol
        (JSValue.obj [("title".toList, JSValue.str ("pH Study".toList))])
        ("1/1/2020".toList) ("0".toList)).aiGenerated = false :=
  C2_fallback_is_default _ _ _ _ (by decide) (Or.inr ⟨" ".toList, rfl, by decide⟩)

/-- C3 counterexample: a descriptor whose `analysisTypes` is present —
explicitly bound to the empty string, a value that is not `undefined` and
not an array — is claimed to fail validation, but the validator accepts
it: the source guard `experimentData.analysisTypes && !Array.isArray(...)`
tests truthiness, and the empty string is falsy.  The first two conjuncts
state the raw shape facts (present, not a list) independently of the
formalized claim condition. -/
theorem C3_counterexample :
    isUndefined (getField
        (JSValue.obj [("title".toList, JSValue.str ("Experiment".toList)),
                      ("analysisTypes".toList, JSValue.str [])])
        ("analysisTypes".toList)) = false ∧
    isArray (getField
        (JSValue.obj [("title".toList, JSValue.str ("Experiment".toList)),
                      ("analysisTypes".toList, JSValue.str [])])
        ("analysisTypes".toList)) = false ∧
    claimC3RejectCond
        (JSValue.obj [("title".toList, JSValue.str ("Experiment".toList)),
                      ("analysisTypes".toList, JSValue.str [])]) = true ∧
    aiService.validateExperimentData
        (JSValue.obj [("title".toList, JSValue.str ("Experiment".toList)),
                      ("analysisTypes".toList, JSValue.str [])]) = true :=
  ⟨by decide, by decide, by decide, by decide⟩

/-- C3 amended: the validator rejects exactly the inputs that are not a
truthy `typeof`-object, or whose title is falsy / not a string /
whitespace-only after trimming, or whose `analysisTypes` is TRUTHY and
not an array; falsy non-array bindings of `analysisTypes` (the empty
string, `null`, `false`, `0`) are accepted although they are present and
not a list.  One direction of the original "exactly when" survives:
every input the validator rejects is one the claim tells it to reject.
A rejection surfaces as the orchestrator throwing before any generation
attempt; on success the descriptor flows on unchanged (in this embedding
the validator is a pure predicate and the orchestrator reads the same
value). -/
theorem C3_validator_amended (v : JSValue) :
    (aiService.validateExperimentData v = false ↔ amendedC3RejectCond v = true) ∧
    (aiService.validateExperimentData v = false → claimC3RejectCond v = true) ∧
    (∀ r today now, aiService.validateExperimentData v = false →
      aiService.generateProtocol v r today now = Except.error ()) := by
  refine ⟨validator_false_iff_amended v, ?_, ?_⟩
  · intro hfail
    exact amended_imp_claimCond v ((validator_false_iff_amended v).mp hfail)
  · intro r today now hfail
    unfold aiService.generateProtocol
    rw [if_pos (by simp [hfail])]

/-- C3 witness: `null` input is rejected and the orchestrator throws. -/
theorem C3_witness :
    aiService.generateProtocol JSValue.null none ("1/1/2020".toList) ("0".toList) =
      Except.error () :=
  (C3_validator_amended JSValue.null).2.2 none _ _ (by decide)

/-- C4: per line, the heading classifier is exactly the first match over
the five patterns markdown-hash, leading-integer-and-period, marker
symbol, all-caps/title-like, bold-wrapped, in that fixed precedence
order: the `||` chain equals an ordered first-match over the matcher
list, an earlier match determines the captured title, and a later pattern
is consulted only when every earlier one failed. -/
theorem C4_header_precedence (l : JStr) :
    aiService.headerMatch l = headerMatchers.findSome? (fun m => m l) ∧
    ((aiService.markdownHeader l).isSome →
      aiService.headerMatch l = aiService.markdownHeader l) ∧
    (aiService.markdownHeader l = none → (aiService.numberedHeader l).isSome →
      aiService.headerMatch l = aiService.numberedHeader l) ∧
    (aiService.markdownHeader l = none → aiService.numberedHeader l = none →
      (aiService.emojiHeader l).isSome →
      aiService.headerMatch l = aiService.emojiHeader l) ∧
    (aiService.markdownHeader l = none → aiService.numberedHeader l = none →
      aiService.emojiHeader l = none → (aiService.allCapsHeader l).isSome →
      aiService.headerMatch l = aiService.allCapsHeader l) ∧
    (aiService.markdownHeader l = none → aiService.numberedHeader l = none →
      aiService.emojiHeader l = none → aiService.allCapsHeader l = none →
      aiService.headerMatch l = aiService.boldHeader l) := by
  unfold aiService.headerMatch headerMatchers
  cases h1 : aiService.markdownHeader l <;>
    cases h2 : aiService.numberedHeader l <;>
    cases h3 : aiService.emojiHeader l <;>
    cases h4 : aiService.allCapsHeader l <;>
    cases h5 : aiService.boldHeader l <;>
    simp [List.findSome?, h1, h2, h3, h4, h5]

/-- C4 witness: a numbered heading is classified by pattern 2 after
pattern 1 fails. -/
theorem C4_witness :
    aiService.markdownHeader ("2. Steps".toList) = none ∧
    aiService.headerMatch ("2. Steps".toList) =
      aiService.numberedHeader ("2. Steps".toList) :=
  ⟨by decide, (C4_header_precedence ("2. Steps".toList)).2.2.1 (by decide) (by decide)⟩

/-- C5 counterexample: the Response Parser throws on the empty string
(the guard `!aiResponse || typeof aiResponse !== 'string'`), so it is not
true that it never throws for any input. -/
theorem C5_counterexample :
    aiService.parseAIResponse [] ("Protocol".toList) ("1/1/2020".toList) ("17".toList) =
      Except.error () := rfl

/-- C5 amended: for every non-empty string input the parser terminates
normally and returns at least one section (the single-section fallback in
the worst case); the empty string, and any non-string value, instead
raises the invalid-format error. -/
theorem C5_parser_total_amended (s t d n : JStr) (h : s ≠ []) :
    ∃ p, aiService.parseAIResponse s t d n = Except.ok p ∧ p.sections ≠ [] :=
  parseAIResponse_ok s t d n h

/-- C5 witness. -/
theorem C5_witness :
    ("hello".toList : JStr) ≠ [] ∧
    ∃ p, aiService.parseAIResponse ("hello".toList) ("T".toList) ("d".toList) ("n".toList) =
        Except.ok p ∧ p.sections ≠ [] :=
  ⟨by decide, C5_parser_total_amended ("hello".toList) _ _ _ (by decide)⟩

/-- C6 counterexample: parsing the empty string does not yield the
single "Protocol Content" section — it throws. -/
theorem C6_counterexample :
    aiService.parseAIResponse [] ("Untitled".toList) ("2/2/2020".toList) ("42".toList) =
      Except.error () := rfl

/-- C6 amended: for every non-empty whitespace-only input the parser
returns exactly one Section with id `protocol_content`, title
"Protocol Content" and the trimmed input as content; the empty string is
rejected with an error instead. -/
theorem C6_degenerate_amended (s t d n : JStr) (hne : s ≠ [])
    (hws : ∀ c ∈ s, jsWs c = true) :
    aiService.parseAIResponse s t d n = Except.ok
      { id := "protocol-".toList ++ n,
        title := if t = [] then "Untitled Protocol".toList else t,
        date := d,
        sections := [⟨"protocol_content".toList, "Protocol Content".toList, jsTrim s⟩],
        aiGenerated := true } := by
  rw [parseAIResponse_eq s t d n hne]
  rw [foldl_step_all_ws (splitLines s) (splitLines_all_ws s hws)]
  rw [show aiService.finishSections ⟨[], none, []⟩ = [] from rfl]
  rw [if_pos rfl]

/-- C6 witness: a single-space input. -/
theorem C6_witness :
    aiService.parseAIResponse (" ".toList) ("T".toList) ("d".toList) ("n".toList) =
      Except.ok
        { id := "protocol-".toList ++ "n".toList,
          title := if ("T".toList : JStr) = [] then "Untitled Protocol".toList else "T".toList,
          date := "d".toList,
          sections := [⟨"protocol_content".toList, "Protocol Content".toList, jsTrim (" ".toList)⟩],
          aiGenerated := true } :=
  C6_degenerate_amended (" ".toList) ("T".toList) ("d".toList) ("n".toList)
    (by decide) (by decide)

/-- C7 counterexample: the headings "Data Analysis" and "Data-Analysis"
normalize to the same slug, and the two resulting sections receive the
SAME id `data_analysis` — no numeric suffix is appended, contradicting
the claimed uniqueness. -/
theorem C7_counterexample :
    (aiService.parseAIResponse ("# Data Analysis\nA\n# Data-Analysis\nB".toList)
        ("T".toList) ("d".toList) ("n".toList)).map (fun p => p.sections.map Sec.id) =
      Except.ok ["data_analysis".toList, "data_analysis".toList] ∧
    (aiService.parseAIResponse ("# Data Analysis\nA\n# Data-Analysis\nB".toList)
        ("T".toList) ("d".toList) ("n".toList)).map (fun p => p.sections.map Sec.title) =
      Except.ok ["Data Analysis".toList, "Data-Analysis".toList] ∧
    slugify ("Data Analysis".toList) = slugify ("Data-Analysis".toList) :=
  ⟨rfl, rfl, rfl⟩

/-- C7 amended: section ids are exactly the slugs of the section titles,
with no collision resolution of any kind — every section of every parse
result satisfies `id = slugify title`, so two headings whose titles
normalize to the same slug necessarily receive the same id. -/
theorem C7_ids_are_slugs_amended (s t d n : JStr) (p : Protocol)
    (h : aiService.parseAIResponse s t d n = Except.ok p) :
    ∀ sec ∈ p.sections, sec.id = slugify sec.title := by
  by_cases hne : s = []
  · rw [hne] at h
    simp [aiService.parseAIResponse] at h
  · rw [parseAIResponse_eq s t d n hne] at h
    injection h with h'
    subst h'
    intro sec hs
    simp only at hs
    by_cases hnil :
        aiService.finishSections ((splitLines s).foldl aiService.step ⟨[], none, []⟩) = []
    · rw [if_pos hnil] at hs
      rcases List.mem_singleton.mp hs with rfl
      exact (by decide : ("protocol_content".toList : JStr) =
        slugify ("Protocol Content".toList))
    · rw [if_neg hnil] at hs
      exact finishSections_preserves_idslug _
        (foldl_step_preserves_idslug (splitLines s) ⟨[], none, []⟩
          (fun sec' hs' => absurd hs' (List.not_mem_nil sec'))) sec hs

/-- C7 witness: the fallback section of a plain input. -/
theorem C7_witness :
    ("protocol_content".toList : JStr) = slugify ("Protocol Content".toList) :=
  C7_ids_are_slugs_amended (" ".toList) ("T".toList) ("d".toList) ("n".toList)
    ⟨"protocol-".toList ++ "n".toList, "T".toList, "d".toList,
      [⟨"protocol_content".toList, "Protocol Content".toList, []⟩], true⟩ rfl
    ⟨"protocol_content".toList, "Protocol Content".toList, []⟩ (by simp)

/-- C8 counterexample: for a descriptor whose `designRationale` is the
empty string, the Deterministic Content Generator still emits all seven
sections including `design_rationale` — the section is not omitted. -/
theorem C8_counterexample :
    (protocolService.generateDefaultProtocol
        (JSValue.obj [("title".toList, JSValue.str ("pH Study".toList)),
                      ("designRationale".toList, JSValue.str [])])
        ("1/1/2020".toList) ("7".toList)).sections.map Sec.id =
      ["introduction".toList, "design_rationale".toList, "materials".toList,
       "methods".toList, "data_analysis".toList, "expected_results".toList,
       "references".toList] ∧
    ¬ ((protocolService.generateDefaultProtocol
        (JSValue.obj [("title".toList, JSValue.str ("pH Study".toList)),
                      ("designRationale".toList, JSValue.str [])])
        ("1/1/2020".toList) ("7".toList)).sections.map Sec.id =
      ["introduction".toList, "materials".toList, "methods".toList,
       "data_analysis".toList, "expected_results".toList, "references".toList]) :=
  ⟨by decide, by decide⟩

/-- C8 amended: for every descriptor and date the Deterministic Content
Generator produces exactly the seven sections Introduction, Design
Rationale, Materials and Equipment, Methods, Data Collection and
Analysis, Expected Results, References in this fixed canonical order,
with `aiGenerated = false`; the Design Rationale section is always
present, its content merely empty when the descriptor's designRationale
is empty or missing. -/
theorem C8_canonical_order_amended (v : JSValue) (date now : JStr) :
    (protocolService.generateDefaultProtocol v date now).sections.map Sec.id =
      ["introduction".toList, "design_rationale".toList, "materials".toList,
       "methods".toList, "data_analysis".toList, "expected_results".toList,
       "references".toList] ∧
    (protocolService.generateDefaultProtocol v date now).sections.map Sec.title =
      ["Introduction".toList, "Design Rationale".toList,
       "Materials and Equipment".toList, "Methods".toList,
       "Data Collection and Analysis".toList, "Expected Results".toList,
       "References".toList] ∧
    (protocolService.generateDefaultProtocol v date now).aiGenerated = false ∧
    ((getField v ("designRationale".toList) = JSValue.undefined ∨
      getField v ("designRationale".toList) = JSValue.str []) →
      (protocolService.generateDefaultProtocol v date now).sections.get? 1 =
        some ⟨"design_rationale".toList, "Design Rationale".toList, []⟩) := by
  refine ⟨rfl, rfl, rfl, ?_⟩
  intro hdr
  have hgen : protocolService.generateDesignRationale
      (getField v ("designRationale".toList)) = [] := by
    rcases hdr with h | h <;> rw [h] <;> rfl
  show some (⟨"design_rationale".toList, "Design Rationale".toList,
      replaceOnce (protocolService.generateDesignRationale
        (getField v ("designRationale".toList)))
        ("## Design Rationale\n\n".toList) []⟩ : Sec) = _
  rw [hgen]
  rfl

/-- C8 witness: empty design rationale gives an empty-content (but
present) Design Rationale section. -/
theorem C8_witness :
    (protocolService.generateDefaultProtocol
        (JSValue.obj [("title".toList, JSValue.str ("pH Study".toList)),
                      ("designRationale".toList, JSValue.str [])])
        ("1/1/2020".toList) ("7".toList)).sections.get? 1 =
      some ⟨"design_rationale".toList, "Design Rationale".toList, []⟩ :=
  (C8_canonical_order_amended _ _ _).2.2.2 (Or.inr rfl)

/-- C9 counterexample: the text "# Materials\nGloves" consists of exactly
one well-formed markdown heading followed by a non-empty body, so the
claim predicts exactly one section with content "Gloves"; the parser
instead classifies the body line "Gloves" as an all-caps/title-like
heading and returns two sections, both with empty content. -/
theorem C9_counterexample :
    (aiService.parseAIResponse ("# Materials\nGloves".toList)
        ("T".toList) ("d".toList) ("n".toList)).map
      (fun p => p.sections.map (fun sec => (sec.id, sec.title, sec.content))) =
      Except.ok [("materials".toList, "Materials".toList, ([] : JStr)),
                 ("gloves".toList, "Gloves".toList, ([] : JStr))] ∧
    (aiService.parseAIResponse ("# Materials\nGloves".toList)
        ("T".toList) ("d".toList) ("n".toList)).map (fun p => p.sections.length) =
      Except.ok 2 :=
  ⟨rfl, rfl⟩

/-- C9 amended: the round-trip does hold when no body line itself matches
any of the five heading patterns: for every non-empty list of
(clean title, clean non-heading body line) pairs, parsing the
heading/body document yields exactly one section per pair, in order,
with id the slug of the title, the title itself, and the body as
content. -/
theorem C9_roundtrip_amended (pairs : List (JStr × JStr)) (t0 d n : JStr)
    (hne : pairs ≠ [])
    (hp : ∀ tb ∈ pairs, cleanTitle tb.1 = true ∧ cleanBody tb.2 = true) :
    ∃ p, aiService.parseAIResponse (mkProtocolText pairs) t0 d n = Except.ok p ∧
      p.sections = pairs.map (fun tb => Sec.mk (slugify tb.1) tb.1 tb.2) := by
  obtain ⟨tb0, rest, rfl⟩ : ∃ tb0 rest, pairs = tb0 :: rest := by
    cases pairs with
    | nil => exact absurd rfl hne
    | cons a l => exact ⟨a, l, rfl⟩
  obtain ⟨ht0, hb0⟩ := hp tb0 (by simp)
  have hlines : ∀ l ∈ ((tb0 :: rest).map (fun tb => [headingLine tb.1, tb.2])).flatten,
      '\n' ∉ l := by
    intro l hl
    simp only [List.mem_flatten, List.mem_map] at hl
    obtain ⟨ls, ⟨tb, htb, rfl⟩, hml⟩ := hl
    obtain ⟨htc, hbc⟩ := hp tb htb
    obtain ⟨_, _, _, hnt, _⟩ := cleanTitle_spec tb.1 htc
    obtain ⟨_, _, _, hnb, _⟩ := cleanBody_spec tb.2 hbc
    rcases (by simpa using hml : l = headingLine tb.1 ∨ l = tb.2) with rfl | rfl
    · intro hmem
      rw [headingLine] at hmem
      rcases List.mem_append.mp hmem with hm | hm
      · exact absurd hm (by decide)
      · exact hnt hm
    · exact hnb
  have hsplit : splitLines (mkProtocolText (tb0 :: rest)) =
      ((tb0 :: rest).map (fun tb => [headingLine tb.1, tb.2])).flatten :=
    splitLines_intercalate _ (by simp) hlines
  have htext : mkProtocolText (tb0 :: rest) ≠ [] := by
    intro h0
    rw [h0] at hsplit
    have h1 : ([[]] : List JStr) =
        ((tb0 :: rest).map (fun tb => [headingLine tb.1, tb.2])).flatten := hsplit
    simp only [List.map_cons, List.flatten_cons, List.cons_append, List.nil_append] at h1
    injection h1 with hx hy
    exact List.noConfusion hy
  rw [parseAIResponse_eq _ t0 d n htext, hsplit]
  simp only [List.map_cons, List.flatten_cons, List.cons_append, List.foldl_cons,
    List.nil_append]
  rw [show aiService.step (aiService.step ⟨[], none, []⟩ (headingLine tb0.1)) tb0.2 =
      ⟨[], some tb0.1, [tb0.2]⟩ from step_first tb0.1 tb0.2 ht0 hb0]
  rw [foldl_pairs rest [] tb0.1 tb0.2 ht0 hb0 (fun tb h => hp tb (by simp [h]))]
  simp only [List.nil_append]
  rw [if_neg (List.cons_ne_nil _ _)]
  exact ⟨_, rfl, by simp⟩

/-- C9 witness: two headings with plain lowercase bodies. -/
theorem C9_witness :
    ∃ p, aiService.parseAIResponse
        (mkProtocolText [("Materials".toList, "gloves and pipettes".toList),
                         ("Methods".toList, "mix the reagents".toList)])
        ("T".toList) ("d".toList) ("n".toList) = Except.ok p ∧
      p.sections = [("Materials".toList, "gloves and pipettes".toList),
                    ("Methods".toList, "mix the reagents".toList)].map
        (fun tb => Sec.mk (slugify tb.1) tb.1 tb.2) :=
  C9_roundtrip_amended _ _ _ _ (by decide) (by decide)

/-- C10: the Template Generator always returns the fixed baseline columns
(sample identifier: text, date, time, measurement: number, notes: text)
and the suggested row count 10, independent of the Protocol's sections;
only the title of the template depends on the Protocol (through its
title). -/
theorem C10_template_baseline (p : Protocol) (now : JStr) :
    (protocolService.generateDataTemplate p now).columns =
      [⟨"sample_id".toList, "Sample ID".toList, "text".toList⟩,
       ⟨"date".toList, "Date".toList, "date".toList⟩,
       ⟨"time".toList, "Time".toList, "time".toList⟩,
       ⟨"measurement".toList, "Measurement".toList, "number".toList⟩,
       ⟨"notes".toList, "Notes".toList, "text".toList⟩] ∧
    (protocolService.generateDataTemplate p now).rows = 10 ∧
    ∀ q : Protocol, q.title = p.title →
      protocolService.generateDataTemplate q now = protocolService.generateDataTemplate p now := by
  refine ⟨rfl, rfl, ?_⟩
  intro q hq
  unfold protocolService.generateDataTemplate
  rw [hq]

/-- C10 witness: two protocols sharing a title but with different ids,
sections and provenance produce the same template. -/
theorem C10_witness :
    protocolService.generateDataTemplate
        ⟨"id2".toList, "Exp".toList, "d".toList,
          [⟨"methods".toList, "Methods".toList, "x".toList⟩], true⟩ ("5".toList) =
      protocolService.generateDataTemplate
        ⟨"id1".toList, "Exp".toList, "d".toList, [], false⟩ ("5".toList) :=
  (C10_template_baseline ⟨"id1".toList, "Exp".toList, "d".toList, [], false⟩
    ("5".toList)).2.2
    ⟨"id2".toList, "Exp".toList, "d".toList,
      [⟨"methods".toList, "Methods".toList, "x".toList⟩], true⟩ rfl
